import Mathlib

/-!
Shallow embedding of the thread reconciliation engine of
`src/models/thread.ts` (sphere-chat-matrix-js-sdk).

The embedding models the `Thread` class state, the process-wide capability
globals, and the pieces of the `Room` collaborator that `onRedaction` and
`initialiseThread` mutate.  External collaborators (`EventTimelineSet`,
`Room.addLiveEvents`, the relation aggregator, the network transport) are
modelled at their interface boundary: the private timeline is a
deduplicated list, `Room.addLiveEvents` appends, aggregation has no effect
on the thread state.
-/

set_option maxHeartbeats 1000000

namespace SphereThread

/-- Feature support levels for server-side thread aggregation.  Mirrors
`enum FeatureSupport` in `models/thread.ts`; `None = 0` is the only value
that is falsy in `if (!Thread.hasServerSideSupport)`. -/
inductive FeatureSupport where
  | None
  | Experimental
  | Stable
deriving DecidableEq, Repr

/-- Mirrors `determineFeatureSupport(stable, unstable)`. -/
def determineFeatureSupport (stable unstable : Bool) : FeatureSupport :=
  if stable then FeatureSupport.Stable
  else if unstable then FeatureSupport.Experimental
  else FeatureSupport.None

/-- JavaScript truthiness of a `FeatureSupport` value (the enum is
number-valued, `None = 0`). -/
def FeatureSupport.truthy : FeatureSupport → Bool
  | FeatureSupport.None => false
  | _ => true

/-- Stable spelling of the thread relation type (`THREAD_RELATION_TYPE`). -/
def threadRelStable : String := "m.thread"

/-- Unstable spelling of the thread relation type (`THREAD_RELATION_TYPE`). -/
def threadRelUnstable : String := "io.element.thread"

/-- An event, with the fields of `MatrixEvent` that `thread.ts` reads or
writes: identifier, sender, local timestamp, the `rel_type` it bears (via
`isRelation`), the `threadRootId` used to route redactions, the in-memory
thread association written by `setThread`, and the set of keys present in
`unsigned["m.relations"]` (only key presence matters to `thread.ts`, which
deletes the `THREAD_RELATION_TYPE.name` key on dissolution). -/
structure MatrixEvent where
  id : String
  sender : String
  localTimestamp : Int
  relType : Option String
  threadRootId : Option String
  threadId : Option String
  unsignedRelations : List String
deriving DecidableEq, Repr

/-- `event.isRelation(relType)`: the event bears a relation of this type. -/
def MatrixEvent.isRelation (e : MatrixEvent) (relType : String) : Bool :=
  e.relType == some relType

/-- `event.setThread(thread)` / `event.setThread(null)`: the thread
association is the thread's id (index-based, per the spec's design note). -/
def MatrixEvent.setThread (e : MatrixEvent) (t : Option String) : MatrixEvent :=
  { e with threadId := t }

/-- The `preferUnstable` flags of the three `ServerControlledNamespacedValue`
globals declared at the bottom of `thread.ts`. -/
structure NamespaceFlags where
  filterRelatedBySendersPreferUnstable : Bool
  filterRelatedByRelTypesPreferUnstable : Bool
  threadRelationTypePreferUnstable : Bool
deriving DecidableEq, Repr

/-- Process-wide mutable statics touched by `Thread.setServerSideSupport`:
`Thread.hasServerSideSupport` and the three namespaced-value flags. -/
structure ThreadGlobals where
  hasServerSideSupport : FeatureSupport
  flags : NamespaceFlags
deriving DecidableEq, Repr

/-- Initial globals: `hasServerSideSupport = FeatureSupport.None` and every
`ServerControlledNamespacedValue` starts with `preferUnstable = false`. -/
def initialGlobals : ThreadGlobals :=
  { hasServerSideSupport := FeatureSupport.None,
    flags := { filterRelatedBySendersPreferUnstable := false,
               filterRelatedByRelTypesPreferUnstable := false,
               threadRelationTypePreferUnstable := false } }

/-- Mirrors `Thread.setServerSideSupport(status)`: stores the status and,
when the status is not `Stable`, calls `setPreferUnstable(true)` on
`FILTER_RELATED_BY_SENDERS`, `FILTER_RELATED_BY_REL_TYPES` and
`THREAD_RELATION_TYPE`.  Note the flags are never set back to `false`. -/
def setServerSideSupport (g : ThreadGlobals) (status : FeatureSupport) : ThreadGlobals :=
  let g := { g with hasServerSideSupport := status }
  if status ≠ FeatureSupport.Stable then
    { g with flags := { filterRelatedBySendersPreferUnstable := true,
                        filterRelatedByRelTypesPreferUnstable := true,
                        threadRelationTypePreferUnstable := true } }
  else g

/-- Modelled from the spec: `ServerControlledNamespacedValue.name` lives in
`src/NamespacedValue.ts`, which is not part of the provided sources.  Per
the spec (section 4.1 and the data model), the capability flag "changes
which of two namespaced identifier strings (stable vs. unstable) is used
for the thread relation type": the lookup returns the unstable spelling
when the value has been biased toward it, the stable spelling otherwise. -/
def threadRelationTypeName (g : ThreadGlobals) : String :=
  if g.flags.threadRelationTypePreferUnstable then threadRelUnstable
  else threadRelStable

/-- Folds a sequence of `setServerSideSupport` calls over the globals. -/
def applyStatuses (g : ThreadGlobals) (statuses : List FeatureSupport) : ThreadGlobals :=
  statuses.foldl setServerSideSupport g

/-- The per-instance mutable state of a `Thread`: its id, the optional
root event, the denormalized reply counter, the `lastEvent` pointer, the
participation flag, and the private timeline (the live timeline of its
`timelineSet`, as a list ordered oldest first). -/
structure ThreadState where
  id : String
  rootEvent : Option MatrixEvent
  replyCount : Int
  lastEvent : Option MatrixEvent
  currentUserParticipated : Bool
  timeline : List MatrixEvent
deriving DecidableEq, Repr

/-- Ambient configuration a `Thread` reads on each operation: the local
user's id (`client.getUserId()`), the static `Thread.hasServerSideSupport`,
and the current `THREAD_RELATION_TYPE.name` spelling. -/
structure Config where
  userId : String
  support : FeatureSupport
  threadRel : String
deriving DecidableEq, Repr

/-- Mirrors `Thread.findEventById`: check `lastEvent` first (it may have
been created from a bundled relationship and not be in a timeline), then
fall back to the timeline-set lookup. -/
def ThreadState.findEventById (st : ThreadState) (eventId : String) : Option MatrixEvent :=
  match st.lastEvent with
  | some l => if l.id == eventId then some l else st.timeline.find? (fun e => e.id == eventId)
  | none => st.timeline.find? (fun e => e.id == eventId)

/-- Mirrors `Thread.has(eventId)`: only the timeline-set index is
consulted (`timelineSet.findEventById(eventId) instanceof MatrixEvent`). -/
def ThreadState.has (st : ThreadState) (eventId : String) : Bool :=
  (st.timeline.find? (fun e => e.id == eventId)).isSome

/-- Mirrors `Thread.lastReply()` with the default predicate (which accepts
every event): scan the timeline from the newest end, i.e. the last
element. -/
def ThreadState.lastReply (st : ThreadState) : Option MatrixEvent :=
  st.timeline.getLast?

/-- Mirrors the private `Thread.addEventToTimeline`: insert into the
timeline set (append or prepend) unless `findEventById` already knows the
event id. -/
def ThreadState.addEventToTimeline (st : ThreadState) (event : MatrixEvent)
    (toStartOfTimeline : Bool) : ThreadState :=
  if (st.findEventById event.id).isSome then st
  else if toStartOfTimeline then { st with timeline := event :: st.timeline }
  else { st with timeline := st.timeline ++ [event] }

/-- The guard `event.localTimestamp > this.lastReply()?.localTimestamp` of
the server-aggregated live branch of `addEvent`.  When `lastReply()` is
`null` the JavaScript comparison `number > undefined` is `false`. -/
def newerThanLastReply (st : ThreadState) (event : MatrixEvent) : Bool :=
  match st.lastReply with
  | some l => decide (l.localTimestamp < event.localTimestamp)
  | none => false

/-- The participation update at the top of `addEvent`:
`if (!this._currentUserParticipated && event.getSender() === this.client.getUserId())`
sets the flag to `true`. -/
def updateParticipation (cfg : Config) (st : ThreadState) (event : MatrixEvent) : ThreadState :=
  if !st.currentUserParticipated && event.sender == cfg.userId then
    { st with currentUserParticipated := true }
  else st

/-- The tail of `addEvent` shared by every branch that does not return
early: increment `replyCount` when there is no server support or no root
event and the event bears the thread relation, then emit `NewReply` when
`emit` is set.  The returned `Bool` records whether `NewReply` fired. -/
def finishAdd (cfg : Config) (st : ThreadState) (event : MatrixEvent)
    (emit : Bool) : ThreadState × Bool :=
  let st :=
    if (!cfg.support.truthy || st.rootEvent.isNone) && event.isRelation cfg.threadRel then
      { st with replyCount := st.replyCount + 1 }
    else st
  (st, emit)

/-- Mirrors `Thread.addEvent(event, toStartOfTimeline, emit)`.  The event's
thread association is set first; the participation flag is updated; then:
with no server support every event is inserted; with server support a
live event is inserted only when strictly newer than `lastReply()`;
otherwise an annotation or replace relation is handed to the relation
aggregator (external, no thread-state effect) and the method returns
early, skipping the counter update and the `NewReply` emit.
`client.decryptEventIfNeeded` and `fetchEditsWhereNeeded` do not touch the
thread state and are not modelled.  The returned `Bool` records whether
`ThreadEvent.NewReply` was emitted. -/
def addEvent (cfg : Config) (st : ThreadState) (event0 : MatrixEvent)
    (toStartOfTimeline : Bool) (emit : Bool) : ThreadState × Bool :=
  let event := event0.setThread (some st.id)
  let st := updateParticipation cfg st event
  if !cfg.support.truthy then
    finishAdd cfg (st.addEventToTimeline event toStartOfTimeline) event emit
  else if !toStartOfTimeline && newerThanLastReply st event then
    finishAdd cfg (st.addEventToTimeline event false) event emit
  else if event.isRelation "m.annotation" || event.isRelation "m.replace" then
    (st, false)
  else
    finishAdd cfg st event emit

/-- Mirrors `Thread.addEvents(events, toStartOfTimeline)`: `addEvent` for
each event in order with the per-event emit suppressed. -/
def addEvents (cfg : Config) (st : ThreadState) (events : List MatrixEvent)
    (toStartOfTimeline : Bool) : ThreadState :=
  events.foldl (fun s e => (addEvent cfg s e toStartOfTimeline false).1) st

/-- The server-aggregated relation bundle
(`IThreadBundledRelationship`): a reply count and the latest event. -/
structure IThreadBundledRelationship where
  count : Int
  latest_event : MatrixEvent
deriving DecidableEq, Repr

/-- The thread together with the parts of its `Room` that `thread.ts`
mutates: the thread-id-keyed collection (as the list of resident ids), the
live timeline, and the cross-thread aggregate timeline sets. -/
structure SystemState where
  thread : ThreadState
  roomThreadIds : List String
  roomLiveTimeline : List MatrixEvent
  threadsTimelineSets : List (List MatrixEvent)
deriving DecidableEq, Repr

/-- Mirrors `Thread.initialiseThread` after a successful root-event fetch,
parameterised by the fetched mapped event and the optional
server-aggregated metadata found on it.  The fetched event gets the thread
association; with metadata present the counter, `lastEvent` and
`rootEvent` are set, every aggregate timeline set replaces its stale copy
of the root (remove-then-insert with `DuplicateStrategy.Replace`), and the
resident copy in the room's live timeline is spliced in place
(`roomEvent.event = mappedEvent.event; roomEvent.setThread(this)`).  With
metadata absent only a log line runs and nothing is mutated. -/
def initialiseThread (sys : SystemState) (mappedEvent : MatrixEvent)
    (metadata : Option IThreadBundledRelationship) : SystemState :=
  let mapped := mappedEvent.setThread (some sys.thread.id)
  match metadata with
  | some md =>
      let st := { sys.thread with
        replyCount := md.count,
        lastEvent := some md.latest_event,
        rootEvent := some mapped }
      let sets := sys.threadsTimelineSets.map (fun ts =>
        (ts.filter (fun e => e.id != st.id)) ++ [mapped])
      let live := sys.roomLiveTimeline.map (fun e =>
        if e.id == st.id then mapped else e)
      { sys with thread := st, threadsTimelineSets := sets, roomLiveTimeline := live }
  | none => sys

/-- The two per-event dissolution statements of `onRedaction`:
`delete event.unsigned["m.relations"][THREAD_RELATION_TYPE.name]` followed
by `event.setThread(null)`. -/
def clearThreadRel (rel : String) (e : MatrixEvent) : MatrixEvent :=
  { e with threadId := none,
           unsignedRelations := e.unsignedRelations.filter (fun r => r != rel) }

/-- Mirrors `Thread.onRedaction(event)`.  Redactions for other timelines
are ignored; otherwise the counter is decremented and, exactly when it
reaches zero, the thread dissolves: it is deleted from `room.threads`, the
root event resident in the room's live timeline loses its thread
association and its `m.relations` entry for the thread relation type and
becomes `rootEvent`, every timeline event loses the same two, the root id
is removed from every aggregate timeline set, and the (now cleared) reply
events are handed to `room.addLiveEvents` (collaborator modelled as
append).  When the root is not resident the remaining dissolution steps
are skipped.  `rel` is the current `THREAD_RELATION_TYPE.name`. -/
def onRedaction (rel : String) (sys : SystemState) (event : MatrixEvent) : SystemState :=
  if event.threadRootId != some sys.thread.id then sys
  else
    let st := { sys.thread with replyCount := sys.thread.replyCount - 1 }
    let sys := { sys with thread := st }
    if st.replyCount == 0 then
      let sys := { sys with roomThreadIds := sys.roomThreadIds.filter (fun i => i != st.id) }
      match sys.roomLiveTimeline.find? (fun e => e.id == st.id) with
      | some roomEvent =>
          let cleared := clearThreadRel rel roomEvent
          let live := sys.roomLiveTimeline.map (fun e => if e.id == st.id then cleared else e)
          let clearedReplies := st.timeline.map (clearThreadRel rel)
          let st := { st with rootEvent := some cleared, timeline := clearedReplies }
          let sets := sys.threadsTimelineSets.map (fun ts => ts.filter (fun e => e.id != st.id))
          { sys with thread := st, roomLiveTimeline := live ++ clearedReplies,
                     threadsTimelineSets := sets }
      | none => sys
    else sys

/-- One call on the thread, for stating properties of call sequences. -/
inductive ThreadOp where
  | add (event : MatrixEvent) (toStartOfTimeline : Bool) (emit : Bool)
  | addMany (events : List MatrixEvent) (toStartOfTimeline : Bool)
  | init (mappedEvent : MatrixEvent) (metadata : Option IThreadBundledRelationship)
  | redact (event : MatrixEvent)
deriving Repr

/-- Interpret one `ThreadOp` on the system state. -/
def applyOp (cfg : Config) (sys : SystemState) : ThreadOp → SystemState
  | ThreadOp.add e s em => { sys with thread := (addEvent cfg sys.thread e s em).1 }
  | ThreadOp.addMany es s => { sys with thread := addEvents cfg sys.thread es s }
  | ThreadOp.init m md => initialiseThread sys m md
  | ThreadOp.redact e => onRedaction cfg.threadRel sys e

/-- Interpret a sequence of calls on the system state. -/
def applyOps (cfg : Config) (sys : SystemState) (ops : List ThreadOp) : SystemState :=
  ops.foldl (applyOp cfg) sys

/-- Whether an op is an `onRedaction` call. -/
def ThreadOp.isRedact : ThreadOp → Bool
  | ThreadOp.redact _ => true
  | _ => false

/-- Whether an op is an `initialiseThread` call whose server-reported
count, when present, is non-negative. -/
def ThreadOp.initCountNonneg : ThreadOp → Bool
  | ThreadOp.init _ (some md) => decide (0 ≤ md.count)
  | _ => true

/-- Fold of bare `addEvent` calls (event, toStartOfTimeline), emits
suppressed, over a thread state. -/
def applyAdds (cfg : Config) (st : ThreadState) (adds : List (MatrixEvent × Bool)) : ThreadState :=
  adds.foldl (fun s p => (addEvent cfg s p.1 p.2 false).1) st

/-- Builder for concrete events used in witnesses and counterexamples. -/
def mkEv (i : String) (sender : String) (ts : Int) (rt : Option String)
    (rel : Option String) : MatrixEvent :=
  { id := i, sender := sender, localTimestamp := ts, relType := rel,
    threadRootId := rt, threadId := none, unsignedRelations := ["m.thread"] }

/-- Configuration with stable server-side support, the local user `me` and
the stable thread relation spelling. -/
def cfgStable : Config :=
  { userId := "me", support := FeatureSupport.Stable, threadRel := "m.thread" }

/-- Configuration with no server-side support. -/
def cfgLegacy : Config :=
  { userId := "me", support := FeatureSupport.None, threadRel := "m.thread" }

/-- A freshly constructed thread `t` before any reply was counted
(`replyCount = 0` as in the field initializer), resident in its room. -/
def sysFresh : SystemState :=
  { thread := { id := "t", rootEvent := none, replyCount := 0, lastEvent := none,
                currentUserParticipated := false, timeline := [] },
    roomThreadIds := ["t"],
    roomLiveTimeline := [mkEv "t" "alice" 0 none none],
    threadsTimelineSets := [[mkEv "t" "alice" 0 none none]] }

/-- A redaction-routed event recorded against thread `t`. -/
def redactedReply : MatrixEvent := mkEv "r1" "alice" 5 (some "t") (some "m.thread")

/-- The latest reply as resolved from server-aggregated bundled metadata
(it never entered the private timeline). -/
def evLast : MatrixEvent := mkEv "last" "alice" 100 (some "t") (some "m.thread")

/-- A thread whose `lastEvent` was resolved from bundled metadata (it is
not in the private timeline): `lastEvent` has timestamp 100 while the
newest timeline entry has timestamp 50. -/
def stBundled : ThreadState :=
  { id := "t", rootEvent := some (mkEv "t" "alice" 0 none none),
    replyCount := 2,
    lastEvent := some evLast,
    currentUserParticipated := false,
    timeline := [mkEv "e50" "alice" 50 (some "t") (some "m.thread")] }

/-- A live reply with timestamp 70: older than `stBundled.lastEvent` (100)
but newer than the newest timeline entry (50). -/
def evMid : MatrixEvent := mkEv "e70" "alice" 70 (some "t") (some "m.thread")

/-- A backfill reply (plain thread relation, not an annotation). -/
def evBackfill : MatrixEvent := mkEv "back" "alice" 10 (some "t") (some "m.thread")

/-- A live annotation (reaction) newer than every timeline entry. -/
def evReaction : MatrixEvent := mkEv "react" "alice" 200 none (some "m.annotation")

/-- The copy of thread `t`'s root event resident in the room's live
timeline, carrying the thread association and the aggregated `m.thread`
relation entry. -/
def rootResident : MatrixEvent := { mkEv "t" "alice" 0 none none with threadId := some "t" }

/-- A thread `t` with exactly one counted reply, whose root event is
resident in the room's live timeline, for exercising dissolution. -/
def sysOneReply : SystemState :=
  { thread := { id := "t", rootEvent := some (mkEv "t" "alice" 0 none none),
                replyCount := 1, lastEvent := none,
                currentUserParticipated := true,
                timeline := [{ mkEv "r1" "alice" 5 (some "t") (some "m.thread") with threadId := some "t" }] },
    roomThreadIds := ["t", "other"],
    roomLiveTimeline := [rootResident, mkEv "x" "bob" 1 none none],
    threadsTimelineSets := [[mkEv "t" "alice" 0 none none]] }

/-!  Helper lemmas about the elementary stages of the operations.  -/

@[simp] theorem setThread_id (e : MatrixEvent) (t : Option String) :
    (e.setThread t).id = e.id := rfl

@[simp] theorem setThread_sender (e : MatrixEvent) (t : Option String) :
    (e.setThread t).sender = e.sender := rfl

@[simp] theorem setThread_localTimestamp (e : MatrixEvent) (t : Option String) :
    (e.setThread t).localTimestamp = e.localTimestamp := rfl

@[simp] theorem setThread_relType (e : MatrixEvent) (t : Option String) :
    (e.setThread t).relType = e.relType := rfl

@[simp] theorem isRelation_setThread (e : MatrixEvent) (t : Option String) (r : String) :
    (e.setThread t).isRelation r = e.isRelation r := rfl

@[simp] theorem updateParticipation_timeline (cfg : Config) (st : ThreadState) (x : MatrixEvent) :
    (updateParticipation cfg st x).timeline = st.timeline := by
  unfold updateParticipation
  split <;> rfl

@[simp] theorem updateParticipation_lastEvent (cfg : Config) (st : ThreadState) (x : MatrixEvent) :
    (updateParticipation cfg st x).lastEvent = st.lastEvent := by
  unfold updateParticipation
  split <;> rfl

@[simp] theorem updateParticipation_replyCount (cfg : Config) (st : ThreadState) (x : MatrixEvent) :
    (updateParticipation cfg st x).replyCount = st.replyCount := by
  unfold updateParticipation
  split <;> rfl

@[simp] theorem updateParticipation_rootEvent (cfg : Config) (st : ThreadState) (x : MatrixEvent) :
    (updateParticipation cfg st x).rootEvent = st.rootEvent := by
  unfold updateParticipation
  split <;> rfl

@[simp] theorem updateParticipation_id (cfg : Config) (st : ThreadState) (x : MatrixEvent) :
    (updateParticipation cfg st x).id = st.id := by
  unfold updateParticipation
  split <;> rfl

@[simp] theorem updateParticipation_cup (cfg : Config) (st : ThreadState) (x : MatrixEvent) :
    (updateParticipation cfg st x).currentUserParticipated
      = (st.currentUserParticipated || x.sender == cfg.userId) := by
  unfold updateParticipation
  cases h : st.currentUserParticipated
  · simp only [h, Bool.not_false, Bool.true_and, Bool.false_or]
    split <;> simp_all
  · simp [h]

@[simp] theorem finishAdd_snd (cfg : Config) (st : ThreadState) (e : MatrixEvent) (em : Bool) :
    (finishAdd cfg st e em).2 = em := by
  simp only [finishAdd]

@[simp] theorem finishAdd_timeline (cfg : Config) (st : ThreadState) (e : MatrixEvent) (em : Bool) :
    (finishAdd cfg st e em).1.timeline = st.timeline := by
  simp only [finishAdd]
  split <;> rfl

@[simp] theorem finishAdd_cup (cfg : Config) (st : ThreadState) (e : MatrixEvent) (em : Bool) :
    (finishAdd cfg st e em).1.currentUserParticipated = st.currentUserParticipated := by
  simp only [finishAdd]
  split <;> rfl

@[simp] theorem finishAdd_lastEvent (cfg : Config) (st : ThreadState) (e : MatrixEvent) (em : Bool) :
    (finishAdd cfg st e em).1.lastEvent = st.lastEvent := by
  simp only [finishAdd]
  split <;> rfl

theorem finishAdd_replyCount (cfg : Config) (st : ThreadState) (e : MatrixEvent) (em : Bool) :
    (finishAdd cfg st e em).1.replyCount
      = st.replyCount +
        (if (!cfg.support.truthy || st.rootEvent.isNone) && e.isRelation cfg.threadRel
         then 1 else 0) := by
  simp only [finishAdd]
  split <;> simp

@[simp] theorem addEventToTimeline_replyCount (st : ThreadState) (e : MatrixEvent) (b : Bool) :
    (st.addEventToTimeline e b).replyCount = st.replyCount := by
  simp only [ThreadState.addEventToTimeline]
  split
  · rfl
  · split <;> rfl

@[simp] theorem addEventToTimeline_cup (st : ThreadState) (e : MatrixEvent) (b : Bool) :
    (st.addEventToTimeline e b).currentUserParticipated = st.currentUserParticipated := by
  simp only [ThreadState.addEventToTimeline]
  split
  · rfl
  · split <;> rfl

@[simp] theorem addEventToTimeline_lastEvent (st : ThreadState) (e : MatrixEvent) (b : Bool) :
    (st.addEventToTimeline e b).lastEvent = st.lastEvent := by
  simp only [ThreadState.addEventToTimeline]
  split
  · rfl
  · split <;> rfl

@[simp] theorem addEventToTimeline_rootEvent (st : ThreadState) (e : MatrixEvent) (b : Bool) :
    (st.addEventToTimeline e b).rootEvent = st.rootEvent := by
  simp only [ThreadState.addEventToTimeline]
  split
  · rfl
  · split <;> rfl

@[simp] theorem lastReply_updateParticipation (cfg : Config) (st : ThreadState) (x : MatrixEvent) :
    (updateParticipation cfg st x).lastReply = st.lastReply := by
  unfold ThreadState.lastReply
  rw [updateParticipation_timeline]

@[simp] theorem newerThanLastReply_updateParticipation (cfg : Config) (st : ThreadState)
    (x e : MatrixEvent) :
    newerThanLastReply (updateParticipation cfg st x) e = newerThanLastReply st e := by
  unfold newerThanLastReply
  rw [lastReply_updateParticipation]

@[simp] theorem newerThanLastReply_setThread (st : ThreadState) (e : MatrixEvent)
    (t : Option String) :
    newerThanLastReply st (e.setThread t) = newerThanLastReply st e := rfl

@[simp] theorem findEventById_updateParticipation (cfg : Config) (st : ThreadState)
    (x : MatrixEvent) (eid : String) :
    (updateParticipation cfg st x).findEventById eid = st.findEventById eid := by
  unfold ThreadState.findEventById
  rw [updateParticipation_lastEvent, updateParticipation_timeline]

/-!  Lemmas about `findEventById` and timeline insertion.  -/

theorem findEventById_isSome_of_mem (st : ThreadState) (eid : String)
    (h : ∃ x ∈ st.timeline, x.id = eid) : (st.findEventById eid).isSome = true := by
  have hf : (st.timeline.find? (fun e => e.id == eid)).isSome = true := by
    rw [List.find?_isSome]
    obtain ⟨x, hx, hid⟩ := h
    exact ⟨x, hx, by simp [hid]⟩
  unfold ThreadState.findEventById
  split
  · split
    · rfl
    · exact hf
  · exact hf

theorem findEventById_none_find? (st : ThreadState) (eid : String)
    (h : (st.findEventById eid).isSome = false) :
    st.timeline.find? (fun e => e.id == eid) = none := by
  unfold ThreadState.findEventById at h
  split at h
  · split at h
    · simp at h
    · exact Option.not_isSome_iff_eq_none.mp (by simp [h])
  · exact Option.not_isSome_iff_eq_none.mp (by simp [h])

theorem not_mem_ids_of_findEventById_none (st : ThreadState) (eid : String)
    (h : (st.findEventById eid).isSome = false) :
    eid ∉ st.timeline.map MatrixEvent.id := by
  intro hmem
  obtain ⟨x, hx, hid⟩ := List.mem_map.mp hmem
  have hnone := findEventById_none_find? st eid h
  have := List.find?_eq_none.mp hnone x hx
  simp [hid] at this

theorem addEventToTimeline_of_found (st : ThreadState) (e : MatrixEvent) (b : Bool)
    (h : (st.findEventById e.id).isSome = true) :
    st.addEventToTimeline e b = st := by
  simp [ThreadState.addEventToTimeline, h]

theorem addEventToTimeline_nodup (st : ThreadState) (e : MatrixEvent) (b : Bool)
    (h : (st.timeline.map MatrixEvent.id).Nodup) :
    ((st.addEventToTimeline e b).timeline.map MatrixEvent.id).Nodup := by
  by_cases hf : (st.findEventById e.id).isSome = true
  · rw [addEventToTimeline_of_found st e b hf]
    exact h
  · have hf' : (st.findEventById e.id).isSome = false := by
      simpa using hf
    have hnm : e.id ∉ st.timeline.map MatrixEvent.id :=
      not_mem_ids_of_findEventById_none st e.id hf'
    cases b <;>
      simp [ThreadState.addEventToTimeline, hf', List.nodup_cons, List.nodup_append, h, hnm]

/-!  Shape lemmas for `addEvent`: effect on each state component.  -/

theorem addEvent_cup (cfg : Config) (st : ThreadState) (e : MatrixEvent) (s em : Bool) :
    (addEvent cfg st e s em).1.currentUserParticipated
      = (st.currentUserParticipated || e.sender == cfg.userId) := by
  simp only [addEvent]
  split
  · simp
  · split
    · simp
    · split
      · simp
      · simp

theorem addEvent_replyCount_ge (cfg : Config) (st : ThreadState) (e : MatrixEvent) (s em : Bool) :
    st.replyCount ≤ (addEvent cfg st e s em).1.replyCount := by
  simp only [addEvent]
  split
  · rw [finishAdd_replyCount]
    simp only [addEventToTimeline_replyCount, updateParticipation_replyCount]
    split <;> omega
  · split
    · rw [finishAdd_replyCount]
      simp only [addEventToTimeline_replyCount, updateParticipation_replyCount]
      split <;> omega
    · split
      · simp
      · rw [finishAdd_replyCount]
        simp only [updateParticipation_replyCount]
        split <;> omega

theorem addEvent_timeline_of_found (cfg : Config) (st : ThreadState) (e : MatrixEvent)
    (s em : Bool) (h : (st.findEventById e.id).isSome = true) :
    (addEvent cfg st e s em).1.timeline = st.timeline := by
  simp only [addEvent]
  split
  · rw [finishAdd_timeline,
        addEventToTimeline_of_found _ _ _ (by simpa using h)]
    simp
  · split
    · rw [finishAdd_timeline,
          addEventToTimeline_of_found _ _ _ (by simpa using h)]
      simp
    · split
      · simp
      · simp

theorem addEvent_nodup (cfg : Config) (st : ThreadState) (e : MatrixEvent) (s em : Bool)
    (h : (st.timeline.map MatrixEvent.id).Nodup) :
    ((addEvent cfg st e s em).1.timeline.map MatrixEvent.id).Nodup := by
  simp only [addEvent]
  split
  · rw [finishAdd_timeline]
    exact addEventToTimeline_nodup _ _ _ (by simpa using h)
  · split
    · rw [finishAdd_timeline]
      exact addEventToTimeline_nodup _ _ _ (by simpa using h)
    · split
      · simpa using h
      · rw [finishAdd_timeline]
        simpa using h

theorem applyAdds_nodup (cfg : Config) (st : ThreadState) (adds : List (MatrixEvent × Bool))
    (h : (st.timeline.map MatrixEvent.id).Nodup) :
    ((applyAdds cfg st adds).timeline.map MatrixEvent.id).Nodup := by
  induction adds generalizing st with
  | nil => exact h
  | cons p adds ih =>
      have h1 := addEvent_nodup cfg st p.1 p.2 false h
      simpa [applyAdds] using ih _ h1

theorem addEvents_replyCount_ge (cfg : Config) (st : ThreadState) (events : List MatrixEvent)
    (s : Bool) : st.replyCount ≤ (addEvents cfg st events s).replyCount := by
  induction events generalizing st with
  | nil => simp [addEvents]
  | cons e events ih =>
      have h1 := addEvent_replyCount_ge cfg st e s false
      have h2 := ih (addEvent cfg st e s false).1
      simp only [addEvents] at h2 ⊢
      simp only [List.foldl_cons]
      omega

/-!  Lemmas about `initialiseThread`, `onRedaction` and call sequences.  -/

theorem initialiseThread_cup (sys : SystemState) (m : MatrixEvent)
    (md : Option IThreadBundledRelationship) :
    (initialiseThread sys m md).thread.currentUserParticipated
      = sys.thread.currentUserParticipated := by
  cases md <;> simp [initialiseThread]

theorem onRedaction_cup (rel : String) (sys : SystemState) (e : MatrixEvent) :
    (onRedaction rel sys e).thread.currentUserParticipated
      = sys.thread.currentUserParticipated := by
  simp only [onRedaction]
  split
  · rfl
  · split
    · split
      · rfl
      · rfl
    · rfl

theorem addEvents_cup_mono (cfg : Config) (st : ThreadState) (events : List MatrixEvent)
    (s : Bool) (h : st.currentUserParticipated = true) :
    (addEvents cfg st events s).currentUserParticipated = true := by
  induction events generalizing st with
  | nil => simpa [addEvents] using h
  | cons e events ih =>
      have h1 : (addEvent cfg st e s false).1.currentUserParticipated = true := by
        rw [addEvent_cup, h]
        rfl
      simpa [addEvents] using ih _ h1

theorem applyOp_cup_mono (cfg : Config) (sys : SystemState) (op : ThreadOp)
    (h : sys.thread.currentUserParticipated = true) :
    (applyOp cfg sys op).thread.currentUserParticipated = true := by
  cases op with
  | add e s em =>
      simp only [applyOp]
      rw [addEvent_cup, h]
      rfl
  | addMany es s =>
      simp only [applyOp]
      exact addEvents_cup_mono cfg sys.thread es s h
  | init m md =>
      rw [applyOp, initialiseThread_cup]
      exact h
  | redact e =>
      rw [applyOp, onRedaction_cup]
      exact h

theorem applyOps_cup_mono (cfg : Config) (sys : SystemState) (ops : List ThreadOp)
    (h : sys.thread.currentUserParticipated = true) :
    (applyOps cfg sys ops).thread.currentUserParticipated = true := by
  induction ops generalizing sys with
  | nil => simpa [applyOps] using h
  | cons op ops ih =>
      simpa [applyOps] using ih _ (applyOp_cup_mono cfg sys op h)

theorem applyOp_replyCount_nonneg (cfg : Config) (sys : SystemState) (op : ThreadOp)
    (h0 : 0 ≤ sys.thread.replyCount) (hnr : op.isRedact = false)
    (hic : op.initCountNonneg = true) :
    0 ≤ (applyOp cfg sys op).thread.replyCount := by
  cases op with
  | add e s em =>
      have := addEvent_replyCount_ge cfg sys.thread e s em
      simp only [applyOp]
      omega
  | addMany es s =>
      have := addEvents_replyCount_ge cfg sys.thread es s
      simp only [applyOp]
      omega
  | init m md =>
      cases md with
      | none => simpa [applyOp, initialiseThread] using h0
      | some md =>
          have : (0 ≤ md.count) := by
            simpa [ThreadOp.initCountNonneg] using hic
          simpa [applyOp, initialiseThread] using this
  | redact e => simp [ThreadOp.isRedact] at hnr

theorem applyOps_replyCount_nonneg (cfg : Config) (sys : SystemState) (ops : List ThreadOp)
    (h0 : 0 ≤ sys.thread.replyCount)
    (hnr : ∀ op ∈ ops, op.isRedact = false)
    (hic : ∀ op ∈ ops, op.initCountNonneg = true) :
    0 ≤ (applyOps cfg sys ops).thread.replyCount := by
  induction ops generalizing sys with
  | nil => simpa [applyOps] using h0
  | cons op ops ih =>
      have h1 := applyOp_replyCount_nonneg cfg sys op h0
        (hnr op (List.mem_cons_self op ops)) (hic op (List.mem_cons_self op ops))
      have h2 := ih (applyOp cfg sys op) h1
        (fun o ho => hnr o (List.mem_cons_of_mem op ho))
        (fun o ho => hic o (List.mem_cons_of_mem op ho))
      simpa [applyOps] using h2

/-!  Lemma for the capability flag: the unstable bias is sticky.  -/

theorem applyStatuses_flag (g : ThreadGlobals) (l : List FeatureSupport) :
    (applyStatuses g l).flags.threadRelationTypePreferUnstable
      = (g.flags.threadRelationTypePreferUnstable
         || l.any (fun s => decide (s ≠ FeatureSupport.Stable))) := by
  induction l generalizing g with
  | nil => simp [applyStatuses]
  | cons s l ih =>
      have h1 : applyStatuses g (s :: l) = applyStatuses (setServerSideSupport g s) l := rfl
      rw [h1, ih]
      by_cases hs : s = FeatureSupport.Stable
      · subst hs
        simp [setServerSideSupport]
      · simp [setServerSideSupport, hs]

/-- Computation lemma: the exact dissolved state produced by `onRedaction`
when the decremented counter reaches zero and the root event is resident
in the room's live timeline. -/
theorem onRedaction_dissolve_eq (rel : String) (sys : SystemState)
    (event rootEv : MatrixEvent)
    (hrc : sys.thread.replyCount = 1)
    (hev : event.threadRootId = some sys.thread.id)
    (hroot : sys.roomLiveTimeline.find? (fun e => e.id == sys.thread.id) = some rootEv) :
    onRedaction rel sys event =
      { thread := { sys.thread with
          replyCount := 0,
          rootEvent := some (clearThreadRel rel rootEv),
          timeline := sys.thread.timeline.map (clearThreadRel rel) },
        roomThreadIds := sys.roomThreadIds.filter (fun i => i != sys.thread.id),
        roomLiveTimeline :=
          (sys.roomLiveTimeline.map (fun e =>
            if e.id == sys.thread.id then clearThreadRel rel rootEv else e))
          ++ sys.thread.timeline.map (clearThreadRel rel),
        threadsTimelineSets := sys.threadsTimelineSets.map (fun ts =>
          ts.filter (fun e => e.id != sys.thread.id)) } := by
  have hne : (event.threadRootId != some sys.thread.id) = false := by
    simp [hev]
  have hrc' : sys.thread.replyCount - 1 = 0 := by omega
  simp only [onRedaction, hne, Bool.false_eq_true, if_false, hrc', hroot]
  simp [hrc']

/-!  Claim theorems.  -/

/-- Claim C2 counterexample: the claim `replyCount ≥ 0 for every sequence of
addEvent, addEvents, initialise and onRedaction calls` is false.  A freshly
constructed thread has `replyCount = 0` (field initializer); a single
`onRedaction` call whose event records this thread as its root decrements
the counter unconditionally, to `-1`. -/
theorem replyCount_negative_after_redaction :
    (applyOps cfgStable sysFresh [ThreadOp.redact redactedReply]).thread.replyCount = -1
    ∧ ¬(0 ≤ (applyOps cfgStable sysFresh
              [ThreadOp.redact redactedReply]).thread.replyCount) := by
  decide

/-- Claim C2 (amended): for every sequence of `addEvent`, `addEvents` and
`initialise` calls (no `onRedaction`), in which every successful
`initialise` reports a non-negative server count, `replyCount` stays
non-negative when it starts non-negative.  An `onRedaction` call can drive
the counter below zero. -/
theorem replyCount_nonneg_without_redactions (cfg : Config) (sys : SystemState)
    (ops : List ThreadOp)
    (h0 : 0 ≤ sys.thread.replyCount)
    (hnr : ∀ op ∈ ops, op.isRedact = false)
    (hic : ∀ op ∈ ops, op.initCountNonneg = true) :
    0 ≤ (applyOps cfg sys ops).thread.replyCount :=
  applyOps_replyCount_nonneg cfg sys ops h0 hnr hic

/-- Claim C2 witness: the amended theorem applied to a fresh thread and a
concrete redaction-free call sequence. -/
theorem replyCount_nonneg_witness :
    0 ≤ (applyOps cfgStable sysFresh
          [ThreadOp.add evMid false true,
           ThreadOp.addMany [evBackfill] true,
           ThreadOp.init (mkEv "t" "alice" 0 none none)
             (some { count := 3, latest_event := evLast })]).thread.replyCount :=
  replyCount_nonneg_without_redactions cfgStable sysFresh _
    (by decide) (by decide) (by decide)

/-- Claim C4 counterexample: the claim `in Stable mode backfill events are
always accepted into the timeline` is false.  A plain thread reply (not an
annotation or replacement) delivered with `toStartOfTimeline = true` to a
Stable-mode thread is not inserted: no branch of `addEvent` adds it. -/
theorem backfill_dropped_concrete :
    cfgStable.support = FeatureSupport.Stable
    ∧ evBackfill.isRelation "m.annotation" = false
    ∧ evBackfill.isRelation "m.replace" = false
    ∧ stBundled.has evBackfill.id = false
    ∧ (addEvent cfgStable stBundled evBackfill true true).1.timeline = stBundled.timeline := by
  decide

/-- Claim C4 (amended): in server-aggregated (Stable) mode,
`addEvent(event, toStartOfTimeline = true)` never inserts the event into
the private timeline — the legacy branch is off, the live branch requires
`toStartOfTimeline = false`, and the relation branch only aggregates.
Backfill events are dropped, for every event. -/
theorem addEvent_backfill_stable_never_inserted (cfg : Config) (st : ThreadState)
    (e : MatrixEvent) (em : Bool) (hs : cfg.support = FeatureSupport.Stable) :
    (addEvent cfg st e true em).1.timeline = st.timeline := by
  simp only [addEvent, hs]
  simp only [FeatureSupport.truthy, Bool.not_true, Bool.false_and, Bool.false_eq_true,
    if_false]
  split
  · simp
  · simp

/-- Claim C4 witness: the amended theorem at a concrete Stable-mode thread
and backfill event. -/
theorem addEvent_backfill_stable_witness :
    (addEvent cfgStable stBundled evBackfill true true).1.timeline = stBundled.timeline :=
  addEvent_backfill_stable_never_inserted cfgStable stBundled evBackfill true rfl

/-- Claim C6 counterexample: the claim `a lookup after the last call
returns the stable identifier if that call was setSupport(Stable)` is
false for the sequence `[Experimental, Stable]`: `setServerSideSupport`
sets `preferUnstable := true` for any non-Stable status and never resets
it, so the lookup still returns the unstable spelling. -/
theorem lookup_unstable_after_stable_rediscovery :
    threadRelationTypeName (applyStatuses initialGlobals
        [FeatureSupport.Experimental, FeatureSupport.Stable]) = threadRelUnstable
    ∧ threadRelUnstable ≠ threadRelStable := by
  decide

/-- Claim C6 (amended): after any sequence of `setSupport` calls starting
from the initial globals, a relation-type lookup returns the
unstable-namespaced identifier if any call in the sequence had a
non-Stable status (the bias is sticky), and the stable-namespaced
identifier otherwise.  In particular a sequence ending in
`setSupport(Experimental)` yields the unstable identifier, but one ending
in `setSupport(Stable)` yields the stable identifier only when no earlier
call was non-Stable. -/
theorem relation_type_lookup_after_setSupport (l : List FeatureSupport) :
    threadRelationTypeName (applyStatuses initialGlobals l)
      = if l.any (fun s => decide (s ≠ FeatureSupport.Stable)) then threadRelUnstable
        else threadRelStable := by
  simp [threadRelationTypeName, applyStatuses_flag, initialGlobals]

/-- Claim C7: when the root-event fetch succeeds but the fetched event
carries no server-aggregated thread metadata, `initialiseThread` only logs
("initialiseThread failed: metadata was falsy") and mutates nothing: the
thread's `replyCount`, `lastEvent`, `rootEvent` and private timeline, and
the room structures, are all unchanged, and no exception is raised (the
model is a total function; the `else` branch has no failure path). -/
theorem initialiseThread_absent_metadata_noop (sys : SystemState) (mappedEvent : MatrixEvent) :
    initialiseThread sys mappedEvent none = sys := rfl

/-- Claim C8: the private timeline never holds two entries with one event
identifier: delivering an event whose identifier already occurs in the
timeline leaves the timeline unchanged (the `findEventById` guard in
`addEventToTimeline` rejects it in every `addEvent` branch), and any
sequence of `addEvent` calls preserves pairwise-distinct identifiers. -/
theorem timeline_dedup_unique_ids (cfg : Config) (st : ThreadState) (e : MatrixEvent)
    (toStart em : Bool) (adds : List (MatrixEvent × Bool))
    (hdup : ∃ x ∈ st.timeline, x.id = e.id)
    (hnodup : (st.timeline.map MatrixEvent.id).Nodup) :
    (addEvent cfg st e toStart em).1.timeline = st.timeline
    ∧ ((applyAdds cfg st adds).timeline.map MatrixEvent.id).Nodup :=
  ⟨addEvent_timeline_of_found cfg st e toStart em (findEventById_isSome_of_mem st e.id hdup),
   applyAdds_nodup cfg st adds hnodup⟩

/-- Claim C8 witness: duplicate delivery of id `e50` leaves the timeline
unchanged, and a concrete burst of adds (with a repeated event) keeps the
identifiers pairwise distinct. -/
theorem timeline_dedup_witness :
    (addEvent cfgStable stBundled (mkEv "e50" "bob" 999 (some "t") (some "m.thread"))
        false true).1.timeline = stBundled.timeline
    ∧ ((applyAdds cfgStable stBundled
          [(evMid, false), (evMid, false), (evBackfill, true)]).timeline.map
        MatrixEvent.id).Nodup :=
  timeline_dedup_unique_ids cfgStable stBundled _ false true _ (by decide) (by decide)

/-- Claim C9: `currentUserParticipated` becomes `true` whenever `addEvent`
sees an event sent by the local user, and once `true` it survives every
further operation — `addEvent`, `addEvents`, `initialiseThread` and
`onRedaction` (redactions included) never reset it. -/
theorem currentUserParticipated_monotone (cfg : Config) (st : ThreadState)
    (sys : SystemState) (e : MatrixEvent) (toStart em : Bool) (ops : List ThreadOp)
    (hsender : e.sender = cfg.userId) :
    (addEvent cfg st e toStart em).1.currentUserParticipated = true
    ∧ (sys.thread.currentUserParticipated = true →
        (applyOps cfg sys ops).thread.currentUserParticipated = true) := by
  constructor
  · rw [addEvent_cup, hsender]
    simp
  · intro h
    exact applyOps_cup_mono cfg sys ops h

/-- Claim C9 witness: a local-user reply flips the flag on a fresh thread,
and a participated thread keeps the flag through a redaction. -/
theorem currentUserParticipated_monotone_witness :
    (addEvent cfgStable sysFresh.thread (mkEv "mine" "me" 7 (some "t") (some "m.thread"))
        false true).1.currentUserParticipated = true
    ∧ (sysOneReply.thread.currentUserParticipated = true →
        (applyOps cfgStable sysOneReply
          [ThreadOp.redact redactedReply]).thread.currentUserParticipated = true) :=
  currentUserParticipated_monotone cfgStable sysFresh.thread sysOneReply _ false true _ rfl

/-- Claim C10: when `lastEvent` holds an event that is not in the private
timeline (as after `initialiseThread` resolved it from bundled metadata),
`findEventById` answers for its identifier (the `lastEvent` short-circuit)
while `has` — which consults only the timeline-set index — answers
`false`: the two public lookups disagree on that identifier. -/
theorem findEventById_has_disagree (st : ThreadState) (l : MatrixEvent)
    (hl : st.lastEvent = some l)
    (hnot : ∀ x ∈ st.timeline, x.id ≠ l.id) :
    st.findEventById l.id = some l ∧ st.has l.id = false := by
  have hfind : st.timeline.find? (fun e => e.id == l.id) = none := by
    rw [List.find?_eq_none]
    intro x hx
    simpa using hnot x hx
  constructor
  · unfold ThreadState.findEventById
    rw [hl]
    simp
  · unfold ThreadState.has
    rw [hfind]
    rfl

/-- Claim C10 witness: in `stBundled` the bundled `lastEvent` (id `last`)
is found by `findEventById` but not by `has`. -/
theorem findEventById_has_disagree_witness :
    stBundled.findEventById evLast.id = some evLast ∧ stBundled.has evLast.id = false :=
  findEventById_has_disagree stBundled evLast rfl (by decide)

/-- Claim C1: for a thread with `replyCount = 1`, `onRedaction` with an
event recording this thread as its root, when the root event is resident
in the room's live timeline, dissolves the thread: it is removed from the
room's thread collection; the root event loses its thread association and
its aggregated `m.relations` entry for the thread relation type (both as
the new `rootEvent` and as resident in the live timeline); every event of
the private timeline loses its thread association (and the same relation
entry); and all those former replies are reinserted into the room as
ordinary live events. -/
theorem onRedaction_dissolves_singleReply (rel : String) (sys : SystemState)
    (event rootEv : MatrixEvent)
    (hrc : sys.thread.replyCount = 1)
    (hev : event.threadRootId = some sys.thread.id)
    (hroot : sys.roomLiveTimeline.find? (fun e => e.id == sys.thread.id) = some rootEv) :
    sys.thread.id ∉ (onRedaction rel sys event).roomThreadIds
    ∧ (∃ r, (onRedaction rel sys event).thread.rootEvent = some r
         ∧ r.threadId = none ∧ rel ∉ r.unsignedRelations)
    ∧ (∀ e ∈ (onRedaction rel sys event).roomLiveTimeline,
         e.id = sys.thread.id → e.threadId = none ∧ rel ∉ e.unsignedRelations)
    ∧ (∀ e ∈ (onRedaction rel sys event).thread.timeline,
         e.threadId = none ∧ rel ∉ e.unsignedRelations)
    ∧ (∀ e ∈ (onRedaction rel sys event).thread.timeline,
         e ∈ (onRedaction rel sys event).roomLiveTimeline) := by
  rw [onRedaction_dissolve_eq rel sys event rootEv hrc hev hroot]
  refine ⟨?_, ?_, ?_, ?_, ?_⟩
  · simp [List.mem_filter]
  · refine ⟨clearThreadRel rel rootEv, rfl, rfl, ?_⟩
    simp [clearThreadRel, List.mem_filter]
  · intro e he hid
    rcases List.mem_append.mp he with h | h
    · obtain ⟨x, hx, hxe⟩ := List.mem_map.mp h
      by_cases hxid : (x.id == sys.thread.id) = true
      · rw [if_pos hxid] at hxe
        subst hxe
        exact ⟨rfl, by simp [clearThreadRel, List.mem_filter]⟩
      · rw [if_neg hxid] at hxe
        subst hxe
        exact absurd hid (by simpa using hxid)
    · obtain ⟨x, hx, hxe⟩ := List.mem_map.mp h
      subst hxe
      exact ⟨rfl, by simp [clearThreadRel, List.mem_filter]⟩
  · intro e he
    obtain ⟨x, hx, hxe⟩ := List.mem_map.mp he
    subst hxe
    exact ⟨rfl, by simp [clearThreadRel, List.mem_filter]⟩
  · intro e he
    exact List.mem_append_right _ he

/-- Claim C1 witness: the dissolution theorem at the concrete one-reply
thread `sysOneReply` and the redaction event `redactedReply`. -/
theorem onRedaction_dissolves_witness :
    sysOneReply.thread.id
        ∉ (onRedaction "m.thread" sysOneReply redactedReply).roomThreadIds
    ∧ (∃ r, (onRedaction "m.thread" sysOneReply redactedReply).thread.rootEvent = some r
         ∧ r.threadId = none ∧ "m.thread" ∉ r.unsignedRelations)
    ∧ (∀ e ∈ (onRedaction "m.thread" sysOneReply redactedReply).roomLiveTimeline,
         e.id = sysOneReply.thread.id →
           e.threadId = none ∧ "m.thread" ∉ e.unsignedRelations)
    ∧ (∀ e ∈ (onRedaction "m.thread" sysOneReply redactedReply).thread.timeline,
         e.threadId = none ∧ "m.thread" ∉ e.unsignedRelations)
    ∧ (∀ e ∈ (onRedaction "m.thread" sysOneReply redactedReply).thread.timeline,
         e ∈ (onRedaction "m.thread" sysOneReply redactedReply).roomLiveTimeline) :=
  onRedaction_dissolves_singleReply "m.thread" sysOneReply redactedReply rootResident
    (by decide) (by decide) (by decide)

/-- Claim C3 counterexample: the claim `in Stable mode a live event is
inserted iff strictly newer than lastEvent` is false.  In `stBundled` the
`lastEvent` pointer (timestamp 100, resolved from bundled metadata) is
newer than every timeline entry (newest: 50); the live reply `evMid`
(timestamp 70) is NOT strictly newer than `lastEvent`, yet `addEvent`
inserts it, because the code gates on `lastReply()` — the newest timeline
entry — not on `lastEvent`. -/
theorem addEvent_inserts_despite_older_lastEvent :
    cfgStable.support = FeatureSupport.Stable
    ∧ stBundled.rootEvent.isSome = true
    ∧ stBundled.lastEvent = some evLast
    ∧ evMid.localTimestamp ≤ evLast.localTimestamp
    ∧ (addEvent cfgStable stBundled evMid false true).1.timeline.length
        = stBundled.timeline.length + 1 := by
  decide

/-- Claim C3 (amended): in server-aggregated (Stable) mode with a known
root event, `addEvent(event, toStartOfTimeline = false)` inserts the
event (appended, carrying the thread association) iff its timestamp is
strictly newer than that of the newest event of the private timeline
(`lastReply()`, not the `lastEvent` pointer; an empty timeline accepts
nothing since the comparison with an absent last reply is false) and its
identifier is not already known to `findEventById`; when the timestamp is
not newer, or the identifier is known, the timeline is unchanged. -/
theorem addEvent_live_gate_lastReply (cfg : Config) (st : ThreadState) (e : MatrixEvent)
    (em : Bool) (hs : cfg.support = FeatureSupport.Stable)
    (_hr : st.rootEvent.isSome = true) :
    ((newerThanLastReply st e = true ∧ (st.findEventById e.id).isSome = false) →
       (addEvent cfg st e false em).1.timeline
         = st.timeline ++ [e.setThread (some st.id)])
    ∧ (newerThanLastReply st e = false →
       (addEvent cfg st e false em).1.timeline = st.timeline)
    ∧ ((st.findEventById e.id).isSome = true →
       (addEvent cfg st e false em).1.timeline = st.timeline) := by
  refine ⟨?_, ?_, fun h => addEvent_timeline_of_found cfg st e false em h⟩
  · rintro ⟨hnew, hfind⟩
    simp [addEvent, ThreadState.addEventToTimeline, hs, FeatureSupport.truthy, hnew, hfind]
  · intro hnew
    simp only [addEvent, hs]
    simp [FeatureSupport.truthy, hnew]
    split <;> simp

/-- Claim C3 witness: the gate characterization at the Stable-mode thread
`stBundled` and live reply `evMid`. -/
theorem addEvent_live_gate_witness :
    ((newerThanLastReply stBundled evMid = true
        ∧ (stBundled.findEventById evMid.id).isSome = false) →
       (addEvent cfgStable stBundled evMid false true).1.timeline
         = stBundled.timeline ++ [evMid.setThread (some stBundled.id)])
    ∧ (newerThanLastReply stBundled evMid = false →
       (addEvent cfgStable stBundled evMid false true).1.timeline = stBundled.timeline)
    ∧ ((stBundled.findEventById evMid.id).isSome = true →
       (addEvent cfgStable stBundled evMid false true).1.timeline = stBundled.timeline) :=
  addEvent_live_gate_lastReply cfgStable stBundled evMid true rfl rfl

/-- Claim C5 counterexample: the claim `annotation/replacement events are
never inserted into the timeline and cause no further side effects` is
false.  A live reaction (`m.annotation`) whose timestamp is newer than the
newest timeline entry falls into the live-newer branch — checked before
the relation branch — so it IS inserted into the private timeline and the
`NewReply` notification IS emitted. -/
theorem annotation_inserted_and_emits :
    cfgStable.support = FeatureSupport.Stable
    ∧ evReaction.isRelation "m.annotation" = true
    ∧ (addEvent cfgStable stBundled evReaction false true).1.timeline.length
        = stBundled.timeline.length + 1
    ∧ (addEvent cfgStable stBundled evReaction false true).2 = true := by
  decide

/-- Claim C5 (amended): an annotation or replacement event is forwarded to
the relation aggregator and returns with no further side effects — the
private timeline unchanged, `replyCount` unchanged, no `NewReply`
notification — only when neither earlier branch of `addEvent` claims it:
server support must be on and the event must be backfill
(`toStartOfTimeline = true`) or not strictly newer than the newest
timeline entry.  (With no server support, or live-and-newer, such events
are inserted like any others.) -/
theorem relation_aggregated_no_side_effects (cfg : Config) (st : ThreadState)
    (e : MatrixEvent) (toStart em : Bool)
    (hsupp : cfg.support.truthy = true)
    (hrel : e.isRelation "m.annotation" = true ∨ e.isRelation "m.replace" = true)
    (hgate : toStart = true ∨ newerThanLastReply st e = false) :
    (addEvent cfg st e toStart em).1.timeline = st.timeline
    ∧ (addEvent cfg st e toStart em).1.replyCount = st.replyCount
    ∧ (addEvent cfg st e toStart em).2 = false := by
  have hg : ¬(toStart = false ∧ newerThanLastReply st e = true) := by
    rcases hgate with h | h <;> simp [h]
  simp [addEvent, hsupp, hg]
  rw [if_pos hrel]
  simp

/-- Claim C5 witness: a backfill-delivered reaction on a Stable-mode
thread is aggregated only — timeline, counter and notifications
untouched. -/
theorem relation_aggregated_witness :
    (addEvent cfgStable stBundled evReaction true true).1.timeline = stBundled.timeline
    ∧ (addEvent cfgStable stBundled evReaction true true).1.replyCount
        = stBundled.replyCount
    ∧ (addEvent cfgStable stBundled evReaction true true).2 = false :=
  relation_aggregated_no_side_effects cfgStable stBundled evReaction true true
    rfl (Or.inl rfl) (Or.inl rfl)

end SphereThread
